import Mathlib

/-!
Shallow embedding of `src/main.py`, a CLI utility that generates and decodes
barcode images (QR, DataMatrix, Code128, Code39, PDF417) by delegating to
external Python libraries, with a transliteration preprocessing step and an
interactive menu.

Modelling conventions:
* External libraries (qrcode, pylibdmtx, python-barcode, pdf417, pyzbar,
  zxing, PIL, transliterate) are black boxes: they are fields of an `ExtEnv`
  record of abstract functions, and theorems quantify over the environment.
* Python's `bytes` and their UTF-8 decoding are collapsed: a decoded result's
  `data.decode()` is modelled as the library directly returning `String`s.
* The filesystem is a map from paths to saved files; a saved file is the
  in-memory image together with the raster-format tag it was saved with
  (`"PNG"` or `"JPEG"`).
* Exceptions raised by a library call are modelled with `Except PyErr`.
* Python `str.strip()`, `str.lower()` and `str.endswith` are modelled by the
  list-based `pyStrip`, `pyLower`, `pyEndsWith` below.
-/

/-- A Python value as it occurs in `kwargs` of the generators: the menu passes
strings, the library defaults are ints. -/
inductive PyValue where
  | str : String → PyValue
  | int : Int → PyValue
deriving DecidableEq

/-- A Python exception, identified by its message (`str(e)`). -/
structure PyErr where
  msg : String
deriving DecidableEq

/-- Keyword arguments `**kwargs` of the `generate` methods (a Python dict,
modelled as an association list without duplicate keys in practice). -/
abbrev Kwargs := List (String × PyValue)

/-- `kwargs.get(key, default)`. -/
def kwargsGet (kwargs : Kwargs) (key : String) (default : PyValue) : PyValue :=
  match kwargs.find? (fun p => p.1 == key) with
  | some p => p.2
  | none => default

/-- An in-memory raster image (PIL image object); its content is abstract. -/
structure Image where
  bits : List Nat
deriving DecidableEq

/-- A file on disk produced by `img.save(path, fmt)`: the image content
together with the raster format it was encoded with. -/
abbrev FileVal := Image × String

/-- The filesystem: which paths hold which saved files. -/
abbrev FS := String → Option FileVal

/-- The external libraries the program delegates to, as black boxes.
Fields mirror the imported names in `src/main.py`. -/
structure ExtEnv where
  /-- `transliterate.translit(text, 'ru', reversed=True)`. -/
  translit : String → String
  /-- `qrcode.QRCode(error_correction=ec)` + `add_data` + `make` +
  `make_image(fill="black", back_color="white")`, collapsed. -/
  qr_make_image : String → PyValue → Image
  /-- `pylibdmtx.encode(data.encode('utf-8'))` + `Image.frombytes`, collapsed. -/
  dmtx_encode : String → Image
  /-- `barcode.get_barcode_class(sym)(data, writer=ImageWriter())`: the PNG
  image the writer renders for symbology `sym` and payload `data`. -/
  barcode_render : String → String → Image
  /-- `pdf417.encode(data, error_level=lvl)`: the list of code words. -/
  pdf417_encode : String → PyValue → List Nat
  /-- `pdf417.render_image(codes)`. -/
  render_image : List Nat → Image
  /-- `img.convert("RGB")`. -/
  convertRGB : Image → Image
  /-- `PIL.Image.open` applied to the file found on disk. -/
  pil_open : FileVal → Image
  /-- `pyzbar.decode(image)`: the `data.decode()` strings of the recognized
  codes, or an exception. -/
  zbar_decode : Image → Except PyErr (List String)
  /-- `pylibdmtx.decode(image)`: the `data.decode('utf-8')` strings of the
  recognized codes, or an exception. -/
  dmtx_decode : Image → Except PyErr (List String)
  /-- `zxing.BarCodeReader().decode(file_path)`: reads the file itself; the
  `parsed` text of the barcode if one was found, `none` if not, or an
  exception (construction of the reader included in the same call). -/
  zxing_decode : FS → String → Except PyErr (Option String)

/-- Python `str.strip()`: drop leading and trailing whitespace. Defined over
the character list so that it evaluates by kernel reduction. -/
def pyStrip (s : String) : String :=
  String.mk (((s.data.dropWhile Char.isWhitespace).reverse.dropWhile
    Char.isWhitespace).reverse)

/-- Python `str.lower()` (the program only compares against ASCII literals). -/
def pyLower (s : String) : String :=
  String.mk (s.data.map Char.toLower)

/-- Python `str.endswith(suffix)`. -/
def pyEndsWith (s suffix : String) : Bool :=
  suffix.data.isSuffixOf s.data

/-- `transliterate_text` (main.py line 34):
`translit(text, 'ru', reversed=True) if any(ord(c) > 128 for c in text) else text`. -/
def transliterate_text (translit : String → String) (text : String) : String :=
  if text.data.any (fun c => c.toNat > 128) then translit text else text

/-- `qrcode.constants.ERROR_CORRECT_M` (the int 0 in the qrcode library). -/
def ERROR_CORRECT_M : PyValue := PyValue.int 0

/-- The `error_correction` argument `QRCodeGenerator.generate` hands to
`qrcode.QRCode` (main.py line 80):
`kwargs.get('error_correction', qrcode.constants.ERROR_CORRECT_M)`. -/
def qrErrorCorrection (kwargs : Kwargs) : PyValue :=
  kwargsGet kwargs "error_correction" ERROR_CORRECT_M

/-- The `error_level` argument `PDF417Generator.generate` hands to
`pdf417.encode` (main.py line 217): `kwargs.get('error_level', 2)`. -/
def pdf417ErrorLevel (kwargs : Kwargs) : PyValue :=
  kwargsGet kwargs "error_level" (PyValue.int 2)

/-- The file written by the common save epilogue of the QR / DataMatrix /
PDF417 generators (main.py lines 85-89, 118-122, 219-223): convert to RGB and
save as JPEG when the lowercased format is `"jpg"`, save as PNG otherwise. -/
def png_or_jpg_file (env : ExtEnv) (img : Image) (file_format : String) : FileVal :=
  if pyLower file_format == "jpg" then (env.convertRGB img, "JPEG") else (img, "PNG")

/-- The common save epilogue as a filesystem update at `file_path`. -/
def save_png_or_jpg (env : ExtEnv) (img : Image) (file_path file_format : String)
    (fs : FS) : FS :=
  fun p => if p = file_path then some (png_or_jpg_file env img file_format) else fs p

/-- `QRCodeGenerator.generate` (main.py lines 69-89): transliterate, build the
QR image with the error-correction level taken from `kwargs`, save. -/
def QRCodeGenerator.generate (env : ExtEnv) (data file_path file_format : String)
    (kwargs : Kwargs) (fs : FS) : FS :=
  let data := transliterate_text env.translit data
  let img := env.qr_make_image data (qrErrorCorrection kwargs)
  save_png_or_jpg env img file_path file_format fs

/-- `QRCodeGenerator.decode` (main.py lines 91-100): `Image.open`, `pyzbar`
decode, then `results[0].data.decode() if results else None`. `Image.open` on
a missing path raises; library exceptions propagate (no `try`). -/
def QRCodeGenerator.decode (env : ExtEnv) (fs : FS) (file_path : String) :
    Except PyErr (Option String) :=
  match fs file_path with
  | none => Except.error ⟨"FileNotFoundError"⟩
  | some f =>
    match env.zbar_decode (env.pil_open f) with
    | Except.error e => Except.error e
    | Except.ok results => Except.ok results.head?

/-- `DataMatrixGenerator.generate` (main.py lines 107-122). -/
def DataMatrixGenerator.generate (env : ExtEnv) (data file_path file_format : String)
    (fs : FS) : FS :=
  let data := transliterate_text env.translit data
  let img := env.dmtx_encode data
  save_png_or_jpg env img file_path file_format fs

/-- `DataMatrixGenerator.decode` (main.py lines 124-133). -/
def DataMatrixGenerator.decode (env : ExtEnv) (fs : FS) (file_path : String) :
    Except PyErr (Option String) :=
  match fs file_path with
  | none => Except.error ⟨"FileNotFoundError"⟩
  | some f =>
    match env.dmtx_decode (env.pil_open f) with
    | Except.error e => Except.error e
    | Except.ok decoded => Except.ok decoded.head?

/-- Python `file_path[:-4]`: the path with its last four characters dropped. -/
def pyDropLast4 (s : String) : String := String.mk (s.data.take (s.data.length - 4))

/-- One observable step of the linear generators, in program order. -/
inductive GenEffect where
  /-- `bar_code.save(base)`: the barcode library writes `base ++ ".png"`. -/
  | barSave (base : String)
  /-- `os.rename(src, dst)`. -/
  | rename (src dst : String)
  /-- `Image.open(path)`. -/
  | imgOpen (path : String)
  /-- `img.save(path, fmt)`. -/
  | imgSave (path fmt : String)
deriving DecidableEq

/-- The effect trace of the linear generators (main.py lines 148-156 and
182-190): library PNG write, rename, then the JPEG conversion when asked. -/
def linearTrace (file_path file_format : String) : List GenEffect :=
  [GenEffect.barSave (pyDropLast4 file_path),
   GenEffect.rename (pyDropLast4 file_path ++ ".png") file_path] ++
  (if pyLower file_format == "jpg" then
    [GenEffect.imgOpen file_path, GenEffect.imgSave file_path "JPEG"]
  else [])

/-- The filesystem transformation shared by `Code128Generator.generate` and
`Code39Generator.generate` (main.py lines 148-156, 182-190) for symbology
`sym`: `bar_code.save(file_path[:-4])` writes `file_path[:-4] + '.png'` as
PNG, `os.rename` moves it to `file_path`, and if the lowercased format is
`"jpg"` the file is reopened, converted to RGB and resaved as JPEG at the
same path. -/
def linearGenerate (env : ExtEnv) (sym data file_path file_format : String)
    (fs : FS) : FS × List GenEffect :=
  let data := transliterate_text env.translit data
  let base := pyDropLast4 file_path
  let img := env.barcode_render sym data
  let fs1 : FS := fun p => if p = base ++ ".png" then some (img, "PNG") else fs p
  let fs2 : FS := fun p =>
    if p = file_path then fs1 (base ++ ".png")
    else if p = base ++ ".png" then none
    else fs1 p
  if pyLower file_format == "jpg" then
    match fs2 file_path with
    | some f =>
      let img2 := env.convertRGB (env.pil_open f)
      (fun p => if p = file_path then some (img2, "JPEG") else fs2 p,
       linearTrace file_path file_format)
    | none => (fs2, linearTrace file_path file_format)
  else (fs2, linearTrace file_path file_format)

/-- `Code128Generator.generate` (main.py lines 140-156). -/
def Code128Generator.generate (env : ExtEnv) (data file_path file_format : String)
    (fs : FS) : FS × List GenEffect :=
  linearGenerate env "code128" data file_path file_format fs

/-- `Code128Generator.decode` (main.py lines 158-167): same body as the QR
decoder (`Image.open` then `pyzbar`). -/
def Code128Generator.decode (env : ExtEnv) (fs : FS) (file_path : String) :
    Except PyErr (Option String) :=
  match fs file_path with
  | none => Except.error ⟨"FileNotFoundError"⟩
  | some f =>
    match env.zbar_decode (env.pil_open f) with
    | Except.error e => Except.error e
    | Except.ok results => Except.ok results.head?

/-- `Code39Generator.generate` (main.py lines 174-190). -/
def Code39Generator.generate (env : ExtEnv) (data file_path file_format : String)
    (fs : FS) : FS × List GenEffect :=
  linearGenerate env "code39" data file_path file_format fs

/-- `Code39Generator.decode` (main.py lines 192-201): same body as the QR
decoder. -/
def Code39Generator.decode (env : ExtEnv) (fs : FS) (file_path : String) :
    Except PyErr (Option String) :=
  match fs file_path with
  | none => Except.error ⟨"FileNotFoundError"⟩
  | some f =>
    match env.zbar_decode (env.pil_open f) with
    | Except.error e => Except.error e
    | Except.ok results => Except.ok results.head?

/-- `PDF417Generator.generate` (main.py lines 208-223). -/
def PDF417Generator.generate (env : ExtEnv) (data file_path file_format : String)
    (kwargs : Kwargs) (fs : FS) : FS :=
  let data := transliterate_text env.translit data
  let codes := env.pdf417_encode data (pdf417ErrorLevel kwargs)
  let img := env.render_image codes
  save_png_or_jpg env img file_path file_format fs

/-- `PDF417Generator.decode` (main.py lines 225-246): the whole body sits in a
`try`; the result is the returned value together with the lines printed. An
exception from the zxing reader is caught and turned into `none` plus a
diagnostic; an unrecognized image yields `none` plus a message. -/
def PDF417Generator.decode (env : ExtEnv) (fs : FS) (file_path : String) :
    Option String × List String :=
  match env.zxing_decode fs file_path with
  | Except.ok (some parsed) => (some parsed, [])
  | Except.ok none => (none, ["Не удалось распознать код на изображении."])
  | Except.error e =>
    (none, ["Ошибка при декодировании PDF417 с использованием zxing: " ++ e.msg])

/-- The three lines printed at the top of the menu loop (main.py 255-257). -/
def menuHeader : List String :=
  ["Выберите тип кода:", "1 - Линейный код", "2 - Двумерный код"]

/-- The linear-code submenu lines (main.py 261-263). -/
def linearPrompt : List String :=
  ["Выберите линейный код:", "1 - Code128", "2 - Code39"]

/-- The two-dimensional-code submenu lines (main.py 268-271). -/
def dimPrompt : List String :=
  ["Выберите двумерный код:", "1 - QR-код", "2 - DataMatrix", "3 - PDF417"]

/-- The invalid-choice message (main.py 280). -/
def invalidMsg : String := "Неверный выбор. Попробуйте снова."

/-- `display_menu` (main.py lines 248-280), driven by the stream of replies
the user types (each reply is `.strip()`ped as in the source). Returns the
lines printed by `print` and, if the stream suffices, the chosen code type
with the unconsumed replies; `none` when the stream runs out while the loop
still waits on `input()`. -/
def display_menu : List String → List String × Option (String × List String)
  | [] => (menuHeader, none)
  | [code_type] =>
    if pyStrip code_type = "1" then (menuHeader ++ linearPrompt, none)
    else if pyStrip code_type = "2" then (menuHeader ++ dimPrompt, none)
    else
      let r := display_menu []
      (menuHeader ++ invalidMsg :: r.1, r.2)
  | code_type :: next :: rest =>
    if pyStrip code_type = "1" then
      (menuHeader ++ linearPrompt,
       some (if pyStrip next = "1" then "code128" else "code39", rest))
    else if pyStrip code_type = "2" then
      if pyStrip next = "1" then (menuHeader ++ dimPrompt, some ("qr", rest))
      else if pyStrip next = "2" then (menuHeader ++ dimPrompt, some ("datamatrix", rest))
      else if pyStrip next = "3" then (menuHeader ++ dimPrompt, some ("pdf417", rest))
      else
        let r := display_menu rest
        (menuHeader ++ dimPrompt ++ invalidMsg :: r.1, r.2)
    else
      let r := display_menu (next :: rest)
      (menuHeader ++ invalidMsg :: r.1, r.2)

/-- The keyword arguments `main` passes on the encode path (main.py lines
323-325): the stripped reply to the error-correction prompt is always passed
under the keyword `error_correction`, even when the reply is empty. -/
def menu_kwargs (reply : String) : Kwargs :=
  [("error_correction", PyValue.str (pyStrip reply))]

/-- The destination path `main` settles on (main.py lines 318-321): the
stripped reply, with an extension derived from the chosen format appended
only when the reply ends with neither `".png"` nor `".jpg"`. -/
def main_resolve_path (raw file_format : String) : String :=
  let file_path := pyStrip raw
  if !(pyEndsWith file_path ".png") && !(pyEndsWith file_path ".jpg") then
    file_path ++ (if file_format == "jpg" then ".jpg" else ".png")
  else file_path

/-- Python truthiness of the `Optional[str]` decode result as used by
`if result:` (main.py line 337): `None` and the empty string are falsy. -/
def pyTruthy : Option String → Bool
  | some s => !s.isEmpty
  | none => false

/-- One observable event of `main`'s decode branch. -/
inductive MainEvent where
  /-- A line printed to the console. -/
  | print (msg : String)
  /-- `generator.decode(file_path)` invoked on the adapter for `variant`. -/
  | decodeCall (variant path : String)
deriving DecidableEq

/-- `generator.decode` dispatched on the chosen code type (main.py lines
302-311 choose `generator`, line 336 calls it). The PDF417 adapter never
raises and prints internally; the other four may raise. -/
def dispatch_decode (env : ExtEnv) (code_type : String) (fs : FS) (path : String) :
    Except PyErr (Option String) × List String :=
  if code_type = "qr" then (QRCodeGenerator.decode env fs path, [])
  else if code_type = "datamatrix" then (DataMatrixGenerator.decode env fs path, [])
  else if code_type = "code128" then (Code128Generator.decode env fs path, [])
  else if code_type = "code39" then (Code39Generator.decode env fs path, [])
  else
    let r := PDF417Generator.decode env fs path
    (Except.ok r.1, r.2)

/-- `main`'s decode branch for one iteration (main.py lines 330-342): strip
the path reply, check `os.path.exists`, and only then call the adapter inside
a `try`, printing the decoded data, a failure message, or the caught error. -/
def main_decode_step (env : ExtEnv) (code_type : String) (fs : FS)
    (raw_path : String) : List MainEvent :=
  let file_path := pyStrip raw_path
  if (fs file_path).isSome then
    MainEvent.decodeCall code_type file_path ::
    (match dispatch_decode env code_type fs file_path with
     | (Except.ok r, printed) =>
       printed.map MainEvent.print ++
       [MainEvent.print (if pyTruthy r then
          "Декодированные данные: " ++ r.getD ""
        else "Не удалось декодировать данные.")]
     | (Except.error e, printed) =>
       printed.map MainEvent.print ++ [MainEvent.print ("Ошибка: " ++ e.msg)])
  else
    [MainEvent.print "Файл не найден. Проверьте путь и попробуйте снова."]

/-- A concrete environment in which every external decoder succeeds and
recognizes exactly one code with text `"A"`; used to instantiate theorems. -/
def demoEnv : ExtEnv where
  translit := fun _ => "t"
  qr_make_image := fun _ _ => ⟨[0]⟩
  dmtx_encode := fun _ => ⟨[1]⟩
  barcode_render := fun _ _ => ⟨[2]⟩
  pdf417_encode := fun _ _ => [3]
  render_image := fun _ => ⟨[4]⟩
  convertRGB := fun i => i
  pil_open := fun f => f.1
  zbar_decode := fun _ => Except.ok ["A"]
  dmtx_decode := fun _ => Except.ok ["A"]
  zxing_decode := fun _ _ => Except.ok (some "A")

/-- A concrete environment in which every external decoder raises an
exception with message `"boom"`. -/
def errEnv : ExtEnv where
  translit := fun _ => "t"
  qr_make_image := fun _ _ => ⟨[0]⟩
  dmtx_encode := fun _ => ⟨[1]⟩
  barcode_render := fun _ _ => ⟨[2]⟩
  pdf417_encode := fun _ _ => [3]
  render_image := fun _ => ⟨[4]⟩
  convertRGB := fun i => i
  pil_open := fun f => f.1
  zbar_decode := fun _ => Except.error ⟨"boom"⟩
  dmtx_decode := fun _ => Except.error ⟨"boom"⟩
  zxing_decode := fun _ _ => Except.error ⟨"boom"⟩

/-- A one-file filesystem: a PNG image saved at `"img.png"`. -/
def demoFS : FS := fun p => if p = "img.png" then some (⟨[9]⟩, "PNG") else none

/-- The empty filesystem. -/
def emptyFS : FS := fun _ => none

/-- Helper: a string with a character above code point 128 is transliterated. -/
theorem transliterate_text_of_exists_gt (translit : String → String) (text : String)
    (h : ∃ c ∈ text.data, 128 < c.toNat) :
    transliterate_text translit text = translit text := by
  obtain ⟨c, hc, hgt⟩ := h
  have hany : (text.data.any fun c => c.toNat > 128) = true :=
    List.any_eq_true.mpr ⟨c, hc, decide_eq_true hgt⟩
  simp [transliterate_text, hany]

/-- Helper: a string whose characters all have code points at most 128 is
returned unchanged. -/
theorem transliterate_text_of_all_le (translit : String → String) (text : String)
    (h : ∀ c ∈ text.data, c.toNat ≤ 128) :
    transliterate_text translit text = text := by
  have hany : (text.data.any fun c => c.toNat > 128) = false := by
    simp only [List.any_eq_false, decide_eq_true_eq]
    intro c hc
    exact not_lt.mpr (h c hc)
  simp [transliterate_text, hany]

/-- C1 (amended): `transliterate_text` transliterates exactly when some
character's code point exceeds 128 (not 127): it returns the transliteration
of the whole string when some character exceeds 128, and returns the string
unchanged when every character's code point is at most 128. -/
theorem transliterate_text_threshold (translit : String → String) (text : String) :
    ((∃ c ∈ text.data, 128 < c.toNat) →
      transliterate_text translit text = translit text) ∧
    ((∀ c ∈ text.data, c.toNat ≤ 128) →
      transliterate_text translit text = text) :=
  ⟨transliterate_text_of_exists_gt translit text,
   transliterate_text_of_all_le translit text⟩

/-- C1 counterexample: the one-character string U+0080 has a character whose
code point exceeds 127, yet `transliterate_text` returns it unchanged rather
than returning the transliteration (here a function sending everything to
`"latin"`): the source tests `ord(c) > 128`, not `> 127`. -/
theorem transliterate_text_threshold_counterexample :
    ((String.mk [Char.ofNat 128]).data.any fun c => 127 < c.toNat) = true ∧
    transliterate_text (fun _ => "latin") (String.mk [Char.ofNat 128]) =
      String.mk [Char.ofNat 128] ∧
    String.mk [Char.ofNat 128] ≠ "latin" := by
  decide

/-- Witness for C1: a Cyrillic string is transliterated, a plain ASCII string
is returned unchanged. -/
theorem transliterate_text_threshold_witness :
    transliterate_text (fun _ => "x") "Ж" = "x" ∧
    transliterate_text (fun _ => "x") "ab" = "ab" :=
  ⟨(transliterate_text_threshold (fun _ => "x") "Ж").1 ⟨'Ж', by decide, by decide⟩,
   (transliterate_text_threshold (fun _ => "x") "ab").2 (by decide)⟩

/-- C2 (amended): the adapters implement the defaults — `QRCodeGenerator`
passes `ERROR_CORRECT_M` to the qrcode library when the key
`error_correction` is absent from `kwargs` and passes a present value
through, and `PDF417Generator` passes `error_level` 2 when the key
`error_level` is absent and passes a present value through — but the menu's
encode path always passes the user's stripped reply under the single keyword
`error_correction`, so via the menu the QR adapter receives the raw reply
(even the empty one, never its default) and the PDF417 adapter never sees the
user's value and always uses its default 2. -/
theorem error_correction_option_flow (v : PyValue) (reply : String) :
    qrErrorCorrection [] = ERROR_CORRECT_M ∧
    qrErrorCorrection [("error_correction", v)] = v ∧
    pdf417ErrorLevel [] = PyValue.int 2 ∧
    pdf417ErrorLevel [("error_level", v)] = v ∧
    qrErrorCorrection (menu_kwargs reply) = PyValue.str (pyStrip reply) ∧
    pdf417ErrorLevel (menu_kwargs reply) = PyValue.int 2 := by
  refine ⟨rfl, ?_, rfl, ?_, ?_, ?_⟩ <;>
    simp [qrErrorCorrection, pdf417ErrorLevel, kwargsGet, menu_kwargs]

/-- C2 counterexample: through the menu, a user-specified error-correction
value `"5"` is not passed to the PDF417 encoder (which still receives its
default 2), and an empty reply — the user leaving the option unspecified —
is passed to the QR library instead of its default `ERROR_CORRECT_M`. -/
theorem error_correction_menu_counterexample :
    pdf417ErrorLevel (menu_kwargs "5") = PyValue.int 2 ∧
    PyValue.int 2 ≠ PyValue.str "5" ∧
    qrErrorCorrection (menu_kwargs "") = PyValue.str "" ∧
    PyValue.str "" ≠ ERROR_CORRECT_M := by
  decide

/-- C3: `PDF417Generator.decode` never propagates an exception raised by the
zxing reader: the exception is caught, a diagnostic line is printed and
`none` is returned, whatever the source path. The other four variants'
decoders propagate an exception raised by their decoding library (pyzbar
resp. pylibdmtx) to the caller. -/
theorem pdf417_decode_swallows_reader_errors (env : ExtEnv) (fs : FS)
    (file_path : String) (f : FileVal) (e : PyErr)
    (hf : fs file_path = some f) :
    (env.zxing_decode fs file_path = Except.error e →
      PDF417Generator.decode env fs file_path =
        (none, ["Ошибка при декодировании PDF417 с использованием zxing: " ++ e.msg])) ∧
    (env.zbar_decode (env.pil_open f) = Except.error e →
      QRCodeGenerator.decode env fs file_path = Except.error e ∧
      Code128Generator.decode env fs file_path = Except.error e ∧
      Code39Generator.decode env fs file_path = Except.error e) ∧
    (env.dmtx_decode (env.pil_open f) = Except.error e →
      DataMatrixGenerator.decode env fs file_path = Except.error e) := by
  refine ⟨fun hz => ?_, fun hz => ?_, fun hz => ?_⟩ <;>
    simp [PDF417Generator.decode, QRCodeGenerator.decode, Code128Generator.decode,
      Code39Generator.decode, DataMatrixGenerator.decode, hf, hz]

/-- Witness for C3: in an environment where every decoder raises `"boom"`,
the PDF417 adapter returns `none` with the diagnostic while the QR and
DataMatrix adapters propagate the exception. -/
theorem pdf417_decode_swallows_reader_errors_witness :
    PDF417Generator.decode errEnv demoFS "img.png" =
      (none, ["Ошибка при декодировании PDF417 с использованием zxing: boom"]) ∧
    QRCodeGenerator.decode errEnv demoFS "img.png" = Except.error ⟨"boom"⟩ ∧
    DataMatrixGenerator.decode errEnv demoFS "img.png" = Except.error ⟨"boom"⟩ :=
  ⟨(pdf417_decode_swallows_reader_errors errEnv demoFS "img.png" (⟨[9]⟩, "PNG")
      ⟨"boom"⟩ (by decide)).1 rfl,
   ((pdf417_decode_swallows_reader_errors errEnv demoFS "img.png" (⟨[9]⟩, "PNG")
      ⟨"boom"⟩ (by decide)).2.1 rfl).1,
   (pdf417_decode_swallows_reader_errors errEnv demoFS "img.png" (⟨[9]⟩, "PNG")
      ⟨"boom"⟩ (by decide)).2.2 rfl⟩

/-- The file the linear generators leave at the requested path: the library's
PNG rendering, reopened, converted and resaved as JPEG when asked. -/
def linear_saved_file (env : ExtEnv) (sym data file_format : String) : FileVal :=
  if pyLower file_format == "jpg" then
    (env.convertRGB (env.pil_open (env.barcode_render sym data, "PNG")), "JPEG")
  else (env.barcode_render sym data, "PNG")

/-- Helper: after a linear `generate`, the requested path holds
`linear_saved_file` of the transliterated payload. -/
theorem linearGenerate_at_path (env : ExtEnv) (sym data file_path file_format : String)
    (fs : FS) :
    (linearGenerate env sym data file_path file_format fs).1 file_path =
      some (linear_saved_file env sym (transliterate_text env.translit data)
        file_format) := by
  unfold linearGenerate linear_saved_file
  by_cases h : pyLower file_format == "jpg" <;> simp [h]

/-- C4: for a pure-ASCII payload and any requested format, decoding the image
that `generate` wrote at the destination path returns the payload unchanged,
for the QR, DataMatrix, Code128 and Code39 variants — given that the
axiomatized external libraries round-trip, i.e. that the variant's decoder
recognizes the payload as the first result on the image that was saved. -/
theorem ascii_roundtrip (env : ExtEnv) (payload file_path file_format : String)
    (kwargs : Kwargs) (fs : FS) (rq rd r1 r3 : List String)
    (hascii : ∀ c ∈ payload.data, c.toNat ≤ 127)
    (hq : env.zbar_decode (env.pil_open (png_or_jpg_file env
        (env.qr_make_image payload (qrErrorCorrection kwargs)) file_format)) =
      Except.ok (payload :: rq))
    (hd : env.dmtx_decode (env.pil_open (png_or_jpg_file env
        (env.dmtx_encode payload) file_format)) = Except.ok (payload :: rd))
    (h1 : env.zbar_decode (env.pil_open
        (linear_saved_file env "code128" payload file_format)) =
      Except.ok (payload :: r1))
    (h3 : env.zbar_decode (env.pil_open
        (linear_saved_file env "code39" payload file_format)) =
      Except.ok (payload :: r3)) :
    QRCodeGenerator.decode env
      (QRCodeGenerator.generate env payload file_path file_format kwargs fs)
      file_path = Except.ok (some payload) ∧
    DataMatrixGenerator.decode env
      (DataMatrixGenerator.generate env payload file_path file_format fs)
      file_path = Except.ok (some payload) ∧
    Code128Generator.decode env
      (Code128Generator.generate env payload file_path file_format fs).1
      file_path = Except.ok (some payload) ∧
    Code39Generator.decode env
      (Code39Generator.generate env payload file_path file_format fs).1
      file_path = Except.ok (some payload) := by
  have htr : transliterate_text env.translit payload = payload :=
    transliterate_text_of_all_le _ _ (fun c hc => (hascii c hc).trans (by omega))
  refine ⟨?_, ?_, ?_, ?_⟩ <;>
    simp [QRCodeGenerator.decode, QRCodeGenerator.generate,
      DataMatrixGenerator.decode, DataMatrixGenerator.generate,
      Code128Generator.decode, Code128Generator.generate,
      Code39Generator.decode, Code39Generator.generate,
      save_png_or_jpg, linearGenerate_at_path, htr, hq, hd, h1, h3]

/-- Witness for C4 at payload `"A"`, path `"out.png"`, format `"png"`, in the
environment whose decoders all recognize `"A"`. -/
theorem ascii_roundtrip_witness :
    QRCodeGenerator.decode demoEnv
      (QRCodeGenerator.generate demoEnv "A" "out.png" "png" [] emptyFS)
      "out.png" = Except.ok (some "A") ∧
    DataMatrixGenerator.decode demoEnv
      (DataMatrixGenerator.generate demoEnv "A" "out.png" "png" emptyFS)
      "out.png" = Except.ok (some "A") ∧
    Code128Generator.decode demoEnv
      (Code128Generator.generate demoEnv "A" "out.png" "png" emptyFS).1
      "out.png" = Except.ok (some "A") ∧
    Code39Generator.decode demoEnv
      (Code39Generator.generate demoEnv "A" "out.png" "png" emptyFS).1
      "out.png" = Except.ok (some "A") :=
  ascii_roundtrip demoEnv "A" "out.png" "png" [] emptyFS [] [] [] []
    (by decide) rfl rfl rfl rfl

/-- C5: every variant's `decode` reads the image at the source path, runs the
variant's external decode routine, and returns the first decoded text when at
least one code is recognized and `none` when none is (for PDF417 the zxing
reader processes the path itself and additionally prints a message in the
`none` case). -/
theorem decode_first_result_or_none (env : ExtEnv) (fs : FS) (file_path : String)
    (f : FileVal) (r : String) (rest : List String)
    (hf : fs file_path = some f) :
    (env.zbar_decode (env.pil_open f) = Except.ok (r :: rest) →
      QRCodeGenerator.decode env fs file_path = Except.ok (some r) ∧
      Code128Generator.decode env fs file_path = Except.ok (some r) ∧
      Code39Generator.decode env fs file_path = Except.ok (some r)) ∧
    (env.zbar_decode (env.pil_open f) = Except.ok [] →
      QRCodeGenerator.decode env fs file_path = Except.ok none ∧
      Code128Generator.decode env fs file_path = Except.ok none ∧
      Code39Generator.decode env fs file_path = Except.ok none) ∧
    (env.dmtx_decode (env.pil_open f) = Except.ok (r :: rest) →
      DataMatrixGenerator.decode env fs file_path = Except.ok (some r)) ∧
    (env.dmtx_decode (env.pil_open f) = Except.ok [] →
      DataMatrixGenerator.decode env fs file_path = Except.ok none) ∧
    (env.zxing_decode fs file_path = Except.ok (some r) →
      PDF417Generator.decode env fs file_path = (some r, [])) ∧
    (env.zxing_decode fs file_path = Except.ok none →
      PDF417Generator.decode env fs file_path =
        (none, ["Не удалось распознать код на изображении."])) := by
  refine ⟨fun h => ?_, fun h => ?_, fun h => ?_, fun h => ?_, fun h => ?_,
    fun h => ?_⟩ <;>
    simp [QRCodeGenerator.decode, Code128Generator.decode, Code39Generator.decode,
      DataMatrixGenerator.decode, PDF417Generator.decode, hf, h]

/-- Witness for C5: with the one-file filesystem and the environment whose
decoders recognize exactly `"A"`, each adapter returns `some "A"`. -/
theorem decode_first_result_or_none_witness :
    QRCodeGenerator.decode demoEnv demoFS "img.png" = Except.ok (some "A") ∧
    DataMatrixGenerator.decode demoEnv demoFS "img.png" = Except.ok (some "A") ∧
    PDF417Generator.decode demoEnv demoFS "img.png" = (some "A", []) :=
  ⟨((decode_first_result_or_none demoEnv demoFS "img.png" (⟨[9]⟩, "PNG") "A" []
      (by decide)).1 rfl).1,
   (decode_first_result_or_none demoEnv demoFS "img.png" (⟨[9]⟩, "PNG") "A" []
      (by decide)).2.2.1 rfl,
   (decode_first_result_or_none demoEnv demoFS "img.png" (⟨[9]⟩, "PNG") "A" []
      (by decide)).2.2.2.2.1 rfl⟩

/-- C6: the linear generators (Code128, Code39) first have the barcode
library write a PNG at the path derived from the destination (`path[:-4]`
plus the writer's fixed `".png"` suffix), then rename that file onto the
requested destination, and only afterwards — when the requested format is
`"jpg"` — reopen the file and resave it converted as JPEG at the same path;
the file finally stored at the destination is `linear_saved_file`. -/
theorem linear_generate_write_rename_convert (env : ExtEnv)
    (data file_path file_format : String) (fs : FS) :
    (Code128Generator.generate env data file_path file_format fs).2 =
      [GenEffect.barSave (pyDropLast4 file_path),
       GenEffect.rename (pyDropLast4 file_path ++ ".png") file_path] ++
      (if pyLower file_format == "jpg" then
        [GenEffect.imgOpen file_path, GenEffect.imgSave file_path "JPEG"]
      else []) ∧
    (Code39Generator.generate env data file_path file_format fs).2 =
      [GenEffect.barSave (pyDropLast4 file_path),
       GenEffect.rename (pyDropLast4 file_path ++ ".png") file_path] ++
      (if pyLower file_format == "jpg" then
        [GenEffect.imgOpen file_path, GenEffect.imgSave file_path "JPEG"]
      else []) ∧
    (Code128Generator.generate env data file_path file_format fs).1 file_path =
      some (linear_saved_file env "code128"
        (transliterate_text env.translit data) file_format) ∧
    (Code39Generator.generate env data file_path file_format fs).1 file_path =
      some (linear_saved_file env "code39"
        (transliterate_text env.translit data) file_format) := by
  refine ⟨?_, ?_, linearGenerate_at_path env "code128" data file_path file_format fs,
    linearGenerate_at_path env "code39" data file_path file_format fs⟩ <;>
  · simp only [Code128Generator.generate, Code39Generator.generate]
    unfold linearGenerate linearTrace
    by_cases h : pyLower file_format == "jpg" <;> simp [h]

/-- C7: in the menu's decode mode, when the (stripped) source path does not
exist the file-not-found message is the only event — no adapter decode is
invoked — and the adapter is invoked exactly when the existence check
succeeds. -/
theorem main_decode_checks_existence (env : ExtEnv) (code_type : String)
    (fs : FS) (raw_path : String) :
    (fs (pyStrip raw_path) = none →
      main_decode_step env code_type fs raw_path =
        [MainEvent.print "Файл не найден. Проверьте путь и попробуйте снова."] ∧
      ∀ v p, MainEvent.decodeCall v p ∉ main_decode_step env code_type fs raw_path) ∧
    ((fs (pyStrip raw_path)).isSome = true →
      MainEvent.decodeCall code_type (pyStrip raw_path) ∈
        main_decode_step env code_type fs raw_path) := by
  constructor
  · intro h
    have h2 : main_decode_step env code_type fs raw_path =
        [MainEvent.print "Файл не найден. Проверьте путь и попробуйте снова."] := by
      simp [main_decode_step, h]
    refine ⟨h2, fun v p => ?_⟩
    rw [h2]
    simp
  · intro h
    simp [main_decode_step, h]

/-- Witness for C7: on the empty filesystem the step reports the missing
file; on the one-file filesystem the adapter is invoked. -/
theorem main_decode_checks_existence_witness :
    main_decode_step demoEnv "qr" emptyFS "missing.png" =
      [MainEvent.print "Файл не найден. Проверьте путь и попробуйте снова."] ∧
    MainEvent.decodeCall "qr" (pyStrip "img.png") ∈
      main_decode_step demoEnv "qr" demoFS "img.png" :=
  ⟨((main_decode_checks_existence demoEnv "qr" emptyFS "missing.png").1 rfl).1,
   (main_decode_checks_existence demoEnv "qr" demoFS "img.png").2 (by decide)⟩

/-- C8: for every format string whose lowercased form is not `"jpg"`
(including `"jpeg"` and `"PNG"`) every variant saves the image PNG-encoded,
and exactly the formats lowercasing to `"jpg"` select JPEG — for the
QR/DataMatrix/PDF417 family through their shared save epilogue
`png_or_jpg_file`, and for the linear variants through the file left at the
destination. -/
theorem generate_png_unless_jpg (env : ExtEnv) (img : Image)
    (data file_path file_format jf : String) (fs : FS)
    (hn : pyLower file_format ≠ "jpg") (hj : pyLower jf = "jpg") :
    (png_or_jpg_file env img file_format).2 = "PNG" ∧
    ((Code128Generator.generate env data file_path file_format fs).1
      file_path).map Prod.snd = some "PNG" ∧
    ((Code39Generator.generate env data file_path file_format fs).1
      file_path).map Prod.snd = some "PNG" ∧
    (png_or_jpg_file env img "jpeg").2 = "PNG" ∧
    (png_or_jpg_file env img "PNG").2 = "PNG" ∧
    (png_or_jpg_file env img jf).2 = "JPEG" ∧
    ((Code128Generator.generate env data file_path jf fs).1
      file_path).map Prod.snd = some "JPEG" := by
  have hb : (pyLower file_format == "jpg") = false := beq_eq_false_iff_ne.mpr hn
  have hbj : (pyLower jf == "jpg") = true := beq_iff_eq.mpr hj
  have he1 : (pyLower "jpeg" == "jpg") = false := by decide
  have he2 : (pyLower "PNG" == "jpg") = false := by decide
  refine ⟨?_, ?_, ?_, ?_, ?_, ?_, ?_⟩ <;>
    simp [png_or_jpg_file, Code128Generator.generate, Code39Generator.generate,
      linearGenerate_at_path, linear_saved_file, hb, hbj, he1, he2]

/-- Witness for C8 at formats `"jpeg"` (saved PNG) and `"JPG"` (saved JPEG). -/
theorem generate_png_unless_jpg_witness :
    (png_or_jpg_file demoEnv ⟨[9]⟩ "jpeg").2 = "PNG" ∧
    ((Code128Generator.generate demoEnv "d" "out.png" "jpeg" emptyFS).1
      "out.png").map Prod.snd = some "PNG" ∧
    (png_or_jpg_file demoEnv ⟨[9]⟩ "JPG").2 = "JPEG" ∧
    ((Code128Generator.generate demoEnv "d" "out.png" "JPG" emptyFS).1
      "out.png").map Prod.snd = some "JPEG" :=
  ⟨(generate_png_unless_jpg demoEnv ⟨[9]⟩ "d" "out.png" "jpeg" "JPG" emptyFS
      (by decide) (by decide)).1,
   (generate_png_unless_jpg demoEnv ⟨[9]⟩ "d" "out.png" "jpeg" "JPG" emptyFS
      (by decide) (by decide)).2.1,
   (generate_png_unless_jpg demoEnv ⟨[9]⟩ "d" "out.png" "jpeg" "JPG" emptyFS
      (by decide) (by decide)).2.2.2.2.2.1,
   (generate_png_unless_jpg demoEnv ⟨[9]⟩ "d" "out.png" "jpeg" "JPG" emptyFS
      (by decide) (by decide)).2.2.2.2.2.2⟩

/-- C9: after choosing the linear family, any (stripped) reply other than
`"1"` selects Code39 immediately, with no validation or re-prompt; after
choosing the two-dimensional family, a reply outside 1/2/3 prints the
invalid-choice message and restarts the menu from the top on the remaining
replies. -/
theorem menu_linear_no_validation (r d : String) (rest : List String)
    (hr : pyStrip r ≠ "1") (h1 : pyStrip d ≠ "1") (h2 : pyStrip d ≠ "2")
    (h3 : pyStrip d ≠ "3") :
    display_menu ("1" :: r :: rest) =
      (menuHeader ++ linearPrompt, some ("code39", rest)) ∧
    display_menu ("2" :: d :: rest) =
      (menuHeader ++ dimPrompt ++ invalidMsg :: (display_menu rest).1,
       (display_menu rest).2) := by
  have e1 : pyStrip "1" = "1" := by decide
  have e2 : pyStrip "2" = "2" := by decide
  constructor
  · simp [display_menu, e1, hr]
  · simp [display_menu, e2, h1, h2, h3]

/-- Witness for C9: reply `"xyz"` selects Code39; reply `"9"` in the
two-dimensional submenu prints the invalid-choice message and restarts. -/
theorem menu_linear_no_validation_witness :
    display_menu ["1", "xyz"] = (menuHeader ++ linearPrompt, some ("code39", [])) ∧
    display_menu ["2", "9"] =
      (menuHeader ++ dimPrompt ++ invalidMsg :: (display_menu []).1,
       (display_menu []).2) :=
  menu_linear_no_validation "xyz" "9" []
    (by decide) (by decide) (by decide) (by decide)

/-- C10: the menu's encode mode appends a format-derived extension exactly
when the stripped destination ends with neither `".png"` nor `".jpg"`; a path
already ending in `".png"` is kept as is, so with chosen format `"jpg"` the
file written at that `".png"` name is JPEG-encoded (no consistency check
between extension and format). -/
theorem encode_path_extension_policy (env : ExtEnv) (data raw file_format p : String)
    (kwargs : Kwargs) (fs : FS)
    (hp : pyStrip p = p) (hpng : pyEndsWith p ".png" = true)
    (h1 : pyEndsWith (pyStrip raw) ".png" = false)
    (h2 : pyEndsWith (pyStrip raw) ".jpg" = false) :
    main_resolve_path raw file_format =
      pyStrip raw ++ (if file_format == "jpg" then ".jpg" else ".png") ∧
    main_resolve_path p "jpg" = p ∧
    ((QRCodeGenerator.generate env data p "jpg" kwargs fs) p).map Prod.snd =
      some "JPEG" := by
  refine ⟨?_, ?_, ?_⟩
  · simp [main_resolve_path, h1, h2]
  · simp [main_resolve_path, hp, hpng]
  · simp [QRCodeGenerator.generate, save_png_or_jpg, png_or_jpg_file,
      (by decide : (pyLower "jpg" == "jpg") = true)]

/-- Witness for C10: `"out"` gets the `".jpg"` extension appended, while
`"out.png"` is kept and receives a JPEG-encoded file. -/
theorem encode_path_extension_policy_witness :
    main_resolve_path "out" "jpg" =
      pyStrip "out" ++ (if "jpg" == "jpg" then ".jpg" else ".png") ∧
    main_resolve_path "out.png" "jpg" = "out.png" ∧
    ((QRCodeGenerator.generate demoEnv "hi" "out.png" "jpg" [] emptyFS)
      "out.png").map Prod.snd = some "JPEG" :=
  encode_path_extension_policy demoEnv "hi" "out" "jpg" "out.png" [] emptyFS
    (by decide) (by decide) (by decide) (by decide)
